import Mathlib

/-!
Formal model of the WebAI-to-API compatibility layer.

This file gives a shallow embedding, in Lean 4, of the pure decision logic of
the repository's API-compatibility and session-lifecycle layer:

* model resolution (`src/app/endpoints/chat.py`, `_resolve_model`),
* multimodal content extraction and temp-file cleanup
  (`src/app/endpoints/chat.py`, `_extract_multimodal_content`;
  `src/app/utils/image_utils.py`),
* the two streaming protocol emulators
  (`src/app/endpoints/chat.py`, `_stream_response` / `_to_openai_format`;
  `src/app/endpoints/responses.py`, `_stream_responses_api`),
* credential-chain construction and client lifecycle
  (`src/app/services/gemini_client.py`, `init_gemini_client`,
  `get_client_status`, `_persist_cookies_loop`),
* error-classification at the request edge
  (`src/app/endpoints/chat.py`, `gemini.py`, `responses.py`).

Python strings are modelled as Lean `String`, with the handful of Python
string primitives the code uses (`strip`, `lower`, `startswith`, `in`)
re-implemented over the underlying character list so that they are both
executable and induction-friendly.  Filesystem and network effects are
modelled by explicit oracle functions (`ExtractCtx`), and the fresh temp-file
names produced by `time.time()` timestamps are modelled by a per-extraction
counter.  File paths are modelled as canonical `/`-separated strings.
-/

namespace WebAI

/-! ## Python string primitives -/

/-- Boolean "`p` is a prefix of `l`" on character lists; models the prefix
test underlying Python's `str.startswith`. -/
def listPre : List Char → List Char → Bool
  | [], _ => true
  | _ :: _, [] => false
  | a :: p, b :: l => a == b && listPre p l

/-- Boolean substring containment on character lists; models Python's
`needle in haystack` for strings. -/
def listHas (pat : List Char) : List Char → Bool
  | [] => listPre pat []
  | c :: t => listPre pat (c :: t) || listHas pat t

/-- Python `pat in s` (substring containment). -/
def pyIn (pat s : String) : Bool := listHas pat.data s.data

/-- Python `s.startswith(p)`. -/
def pyStartsWith (s p : String) : Bool := listPre p.data s.data

/-- Python `s.lower()` (ASCII-adequate, per-character lowering). -/
def pyLower (s : String) : String := ⟨s.data.map Char.toLower⟩

/-- Drop the characters satisfying `p` from both ends of a list. -/
def dropEdges (p : Char → Bool) (l : List Char) : List Char :=
  ((l.dropWhile p).reverse.dropWhile p).reverse

/-- Python `s.strip()` (whitespace from both ends). -/
def pyStripWs (s : String) : String := ⟨dropEdges Char.isWhitespace s.data⟩

/-- Python `s.strip(c)` for a single strip character `c`. -/
def pyStripChar (c : Char) (s : String) : String :=
  ⟨dropEdges (fun x => x == c) s.data⟩

/-! ## Model resolver (`src/app/endpoints/chat.py`) -/

/-- The closed set of internal models, `GeminiModels` in `src/schemas/request.py`. -/
inductive GeminiModels
  | pro
  | flash
  | flashThinking
deriving DecidableEq

/-- `GeminiModels.value` — the wire string of each model. -/
def GeminiModels.value : GeminiModels → String
  | .pro => "gemini-3.0-pro"
  | .flash => "gemini-3.0-flash"
  | .flashThinking => "gemini-3.0-flash-thinking"

/-- `_MODEL_ALIASES` in `src/app/endpoints/chat.py`: the static alias table
from lower-cased external model strings to internal models. -/
def modelAliases : List (String × GeminiModels) :=
  [ ("gemini-3.0-pro",            .pro),
    ("gemini-3.0-flash",          .flash),
    ("gemini-3.0-flash-thinking", .flashThinking),
    ("gemini-pro",                .pro),
    ("gemini-ultra",              .pro),
    ("gemini-flash",              .flash),
    ("gemini-1.0-pro",            .pro),
    ("gemini-1.5-pro",            .pro),
    ("gemini-1.5-pro-latest",     .pro),
    ("gemini-1.5-flash",          .flash),
    ("gemini-1.5-flash-latest",   .flash),
    ("gemini-2.0-flash",          .flash),
    ("gemini-2.0-flash-exp",      .flash),
    ("gemini-2.0-pro",            .pro),
    ("gemini-2.5-pro",            .pro),
    ("gemini-2.5-flash",          .flash),
    ("gemini-3-pro",              .pro),
    ("gemini-3-flash",            .flash),
    ("gemini-3-flash-thinking",   .flashThinking) ]

/-- Dictionary lookup `_MODEL_ALIASES[k]`. -/
def aliasLookup (k : String) : Option GeminiModels :=
  (modelAliases.find? (fun p => p.1 == k)).map (·.2)

/-- `_resolve_model` in `src/app/endpoints/chat.py`: empty/absent input gives
the default model; else the trimmed lower-cased string is looked up in the
alias table; else substring heuristics `thinking`/`pro`/`flash` apply, with
`flash` as the final default. -/
def resolve_model : Option String → GeminiModels
  | none => .flash
  | some s =>
    if s = "" then .flash
    else
      match aliasLookup (pyLower (pyStripWs s)) with
      | some m => m
      | none =>
        if pyIn "thinking" (pyLower (pyStripWs s)) then .flashThinking
        else if pyIn "pro" (pyLower (pyStripWs s)) then .pro
        else if pyIn "flash" (pyLower (pyStripWs s)) then .flash
        else .flash

/-! ## Multimodal content extractor (`src/app/endpoints/chat.py`,
`src/app/utils/image_utils.py`)

Effects are modelled by oracles in `ExtractCtx`: `b64decode` models Python's
`base64.b64decode` (`none` = raises, and every exception it can raise is a
`ValueError` subclass); `download` models the remote fetch of
`download_to_tempfile` (`none` = any network failure, `some ct` = success
with content-type `ct`); `fileExists` models `Path.exists`.  Fresh temp-file
names (`_unique_name`, timestamp-based in the source) are modelled by a
per-extraction counter. -/

/-- Oracles for the filesystem/network effects of the extractor. -/
structure ExtractCtx where
  tempDir : String
  b64decode : String → Option Nat
  download : String → Option String
  fileExists : String → Bool

/-- `_MIME_TO_EXT.get m` in `src/app/utils/image_utils.py` (no default). -/
def mimeExt? (m : String) : Option String :=
  if m = "image/jpeg" then some ".jpg"
  else if m = "image/jpg" then some ".jpg"
  else if m = "image/png" then some ".png"
  else if m = "image/gif" then some ".gif"
  else if m = "image/webp" then some ".webp"
  else if m = "image/bmp" then some ".bmp"
  else if m = "application/pdf" then some ".pdf"
  else none

/-- The anchored regular expression `data:([^;]+);base64,(.+)` (DOTALL) of
`decode_base64_to_tempfile`: the mime group is the non-empty run up to the
first `;`, which must be followed by the literal `;base64,` and a non-empty
payload. Returns `(mime, payload)` on match. -/
def parseDataUri (s : String) : Option (String × String) :=
  if pyStartsWith s "data:" then
    let rest : List Char := s.data.drop 5
    let mime := rest.takeWhile (fun c => c != ';')
    let after := rest.drop mime.length
    if mime.isEmpty then none
    else if listPre ";base64,".data after then
      let payload := after.drop 8
      if payload.isEmpty then none else some (⟨mime⟩, ⟨payload⟩)
    else none
  else none

/-- `decode_base64_to_tempfile` in `src/app/utils/image_utils.py`.
`.error` models a raised `ValueError` (the explicit raise on a malformed
data URI, and `base64.b64decode`'s `binascii.Error`/`UnicodeEncodeError`,
both `ValueError` subclasses).  On success the file is written to the temp
directory under a fresh `b64_<ts><ext>` name, extension from the trimmed
mime type with default `.bin`. -/
def decode_base64_to_tempfile (ctx : ExtractCtx) (seq : Nat) (dataUri : String) :
    Except String String :=
  match parseDataUri dataUri with
  | none => .error "Invalid data URI"
  | some (mime, payload) =>
    let mimeType := pyStripWs mime
    let b64Data := pyStripWs payload
    match ctx.b64decode b64Data with
    | none => .error "base64 decode failed"
    | some _ => .ok (ctx.tempDir ++ "/b64_" ++ toString seq ++ (mimeExt? mimeType).getD ".bin")

/-- `download_to_tempfile` in `src/app/utils/image_utils.py`: any failure
returns `none`; success writes a fresh `dl_<ts><ext>` temp file, extension
from the response content-type with default `.jpg`. -/
def download_to_tempfile (ctx : ExtractCtx) (seq : Nat) (url : String) : Option String :=
  match ctx.download url with
  | none => none
  | some contentType => some (ctx.tempDir ++ "/dl_" ++ toString seq ++ (mimeExt? contentType).getD ".jpg")

/-- A JSON value as far as the extractor's dynamic typing can observe it: a
string, or any non-string value together with its Python truthiness (e.g.
`other true` stands for `5`, `True` or a non-empty list, `other false` for
`0`, `None`, `[]` or `{}`).  The extractor only ever compares such values
with string literals (never equal), tests their truthiness, or trips over
them (`str.join` / `.startswith`), so this quotient is faithful. -/
inductive PyVal
  | pstr (s : String)
  | other (truthy : Bool)
deriving DecidableEq

/-- Python truthiness of a JSON value (`if txt:`, `if not url:`). -/
def PyVal.truthy : PyVal → Bool
  | .pstr s => !(s == "")
  | .other t => t

/-- The modelled exceptions the extractor can raise: `TypeError` from
`" ".join(text_parts)` when a collected text value is not a string, and
`AttributeError` from `url.startswith(...)` when a dict-valued `image_url`
carries a truthy non-string `"url"` value. -/
inductive PyExn
  | typeError
  | attributeError
deriving DecidableEq

/-- The `image_url` field of an image part: either a dict — whose `"url"`
value is an arbitrary JSON value (absent key and absent field both default
to `""` / `{}`) — or any non-dict value, for which the code takes
`str(image_url)`, always a string. -/
inductive ImageUrlField
  | dict (url : PyVal)
  | nonDict (strForm : String)
deriving DecidableEq

/-- The URL value the code computes:
`img_url_obj.get("url", "") if isinstance(img_url_obj, dict) else str(img_url_obj)`. -/
def urlValue : ImageUrlField → PyVal
  | .dict v => v
  | .nonDict strForm => .pstr strForm

/-- One element of a message `content` list.  `nonDict` models a non-dict
entry (skipped).  For a dict, `ptype` is `part.get("type", "")`, `text` is
`part.get("text", "")` and `imageUrl` is `part.get("image_url", {})` — all
arbitrary JSON values, since the request body is unvalidated at this level. -/
inductive MsgPart
  | nonDict
  | mk (ptype : PyVal) (text : PyVal) (imageUrl : ImageUrlField)

/-- The `content` field of one message: a plain string, a list of parts, or
anything else (with its Python truthiness and `str()` form). -/
inductive MsgContent
  | str (s : String)
  | parts (l : List MsgPart)
  | other (truthy : Bool) (strForm : String)

/-- A file handle produced by the extractor.  `created` is the ground-truth
mark of §3 of the spec: `true` for files the extractor newly wrote (base64
decode, remote download), `false` for pre-existing `file://` references.
The Python code returns only the path. -/
structure ExtractedFile where
  path : String
  created : Bool
deriving DecidableEq

/-- The per-part step of `_extract_multimodal_content`'s loop.  State is
`(fresh-name counter, collected text values, files)`.  A truthy text value
is collected whatever its type (the join at the end raises on non-strings);
an image part first tests the URL value's truthiness (`if not url`), then
calls `.startswith`, which raises `AttributeError` on a truthy non-string. -/
def processPart (ctx : ExtractCtx) (st : Nat × List PyVal × List ExtractedFile)
    (p : MsgPart) : Except PyExn (Nat × List PyVal × List ExtractedFile) :=
  match p with
  | .nonDict => .ok st
  | .mk ptype text imageUrl =>
    if ptype = .pstr "text" ∨ ptype = .pstr "input_text" then
      if text.truthy then .ok (st.1, st.2.1 ++ [text], st.2.2) else .ok st
    else if ptype = .pstr "image_url" ∨ ptype = .pstr "input_image" then
      match urlValue imageUrl with
      | .other t => if t then .error .attributeError else .ok st
      | .pstr u =>
        if u = "" then .ok st
        else if pyStartsWith u "data:" then
          match decode_base64_to_tempfile ctx st.1 u with
          | .ok path => .ok (st.1 + 1, st.2.1, st.2.2 ++ [⟨path, true⟩])
          | .error _ => .ok st
        else if pyStartsWith u "file://" then
          let fileId : String := ⟨u.data.drop 7⟩
          if pyIn "/" fileId = false ∧ pyIn "\\" fileId = false ∧ pyIn ".." fileId = false then
            if ctx.fileExists (ctx.tempDir ++ "/" ++ fileId) then
              .ok (st.1, st.2.1, st.2.2 ++ [⟨ctx.tempDir ++ "/" ++ fileId, false⟩])
            else .ok st
          else .ok st
        else if pyStartsWith u "http://" ∨ pyStartsWith u "https://" then
          match download_to_tempfile ctx st.1 u with
          | some path => .ok (st.1 + 1, st.2.1, st.2.2 ++ [⟨path, true⟩])
          | none => .ok st
        else .ok st
    else .ok st

/-- Python `sep.join(parts)`: raises `TypeError` when any element is not a
string, otherwise concatenates with the separator. -/
def pyJoin (sep : String) (parts : List PyVal) : Except PyExn String :=
  if parts.all (fun v => match v with | .pstr _ => true | .other _ => false) then
    .ok (String.intercalate sep
      (parts.filterMap (fun v => match v with | .pstr s => some s | .other _ => none)))
  else .error .typeError

/-- `_extract_multimodal_content` in `src/app/endpoints/chat.py`: a plain
string is returned verbatim with no files; a non-list non-string returns its
`str()` form when truthy, else `""`; a list is folded part by part (an
exception aborts the loop) and the collected text values are joined with
single spaces (which raises `TypeError` if any is not a string).  Exceptions
propagate to the caller: the extraction call sites in `chat_completions` and
`create_response` sit outside their `try` blocks. -/
def extract_multimodal_content (ctx : ExtractCtx) :
    MsgContent → Except PyExn (String × List ExtractedFile)
  | .str s => .ok (s, [])
  | .other truthy strForm => .ok (if truthy then strForm else "", [])
  | .parts l => do
    let st ← l.foldlM (processPart ctx) ((0 : Nat), ([] : List PyVal), ([] : List ExtractedFile))
    let t ← pyJoin " " st.2.1
    pure (t, st.2.2)

/-- `Path.is_relative_to(root)` on canonical `/`-separated path strings. -/
def isRelativeTo (root p : String) : Bool :=
  p == root || pyStartsWith p (root ++ "/")

/-- `cleanup_temp_files` in `src/app/utils/image_utils.py`: returns the list
of paths actually unlinked (those that exist and are relative to the temp
directory). -/
def cleanup_temp_files (ctx : ExtractCtx) (paths : List String) : List String :=
  paths.filter (fun p => ctx.fileExists p && isRelativeTo ctx.tempDir p)

/-- A concrete extraction context used to evaluate the model: the process
temp directory holds one previously uploaded file `upload1.png` (as written
by the `/v1/files` endpoint of `src/app/endpoints/files.py`, which stores
uploads in the same `get_temp_dir()` directory), base64 decoding and
downloads fail. -/
def uploadRefCtx : ExtractCtx :=
  { tempDir := "/tmp/webai"
    b64decode := fun _ => none
    download := fun _ => none
    fileExists := fun p => p == "/tmp/webai/upload1.png" }

/-! ## Image serialization output and streaming emulators -/

/-- One serialized response image, as built by `serialize_response_images`
in `src/app/utils/image_utils.py`. -/
structure ImgDict where
  type : String
  url : String
  base64 : String
  title : String
  alt : String
deriving DecidableEq

/-- The joined markdown image links
`"\n".join(f"![{img['title']}]({img['url']})" ...)`. -/
def mdLinks (images : List ImgDict) : String :=
  String.intercalate "\n" (images.map (fun img => "![" ++ img.title ++ "](" ++ img.url ++ ")"))

/-- The content field with image markdown appended when images are present:
`f"{text}\n\n{md_links}".strip()` under `if images:`. -/
def contentWithImages (text : String) (images : List ImgDict) : String :=
  if images.isEmpty then text else pyStripWs (text ++ "\n\n" ++ mdLinks images)

/-- `choices[0].message` of a chat completion. -/
structure ChatMessage where
  role : String
  content : String
deriving DecidableEq

/-- One entry of `choices`. -/
structure ChatChoice where
  index : Nat
  message : ChatMessage
  finishReason : Option String
deriving DecidableEq

/-- The single-shot chat completion object of `_to_openai_format`
(`src/app/endpoints/chat.py`); the constant zero `usage` block is omitted. -/
structure ChatCompletionObj where
  id : String
  object : String
  created : Nat
  model : String
  choices : List ChatChoice
  images : Option (List ImgDict)
deriving DecidableEq

/-- `_to_openai_format` in `src/app/endpoints/chat.py`.  `now` models
`int(time.time())`. -/
def to_openai_format (now : Nat) (responseText model : String) (images : List ImgDict)
    (stream : Bool) : ChatCompletionObj :=
  { id := "chatcmpl-" ++ toString now
    object := if stream then "chat.completion.chunk" else "chat.completion"
    created := now
    model := model
    choices := [⟨0, ⟨"assistant", contentWithImages responseText images⟩, some "stop"⟩]
    images := if images.isEmpty then none else some images }

/-- The `delta` object of a streamed chunk. -/
structure ChatDelta where
  role : Option String
  content : Option String
deriving DecidableEq

/-- One streamed chunk of `_stream_response` (its single `choices` entry is
flattened into `delta`/`finishReason`, as in the source every chunk has
exactly one choice with index 0). -/
structure ChatChunk where
  id : String
  object : String
  created : Nat
  model : String
  delta : ChatDelta
  finishReason : Option String
  images : Option (List ImgDict)
deriving DecidableEq

/-- An SSE item of the chat-completions stream: a data chunk or the final
`data: [DONE]` sentinel. -/
inductive StreamItem
  | chunk (c : ChatChunk)
  | doneMarker
deriving DecidableEq

/-- `_stream_response` in `src/app/endpoints/chat.py`: role-announcement
chunk, single full-content chunk (carrying the images extension field when
present), closing chunk with `finish_reason: "stop"`, then the `[DONE]`
sentinel. -/
def stream_response (now : Nat) (responseText model : String) (images : List ImgDict) :
    List StreamItem :=
  let completionId := "chatcmpl-" ++ toString now
  let content := contentWithImages responseText images
  [ .chunk ⟨completionId, "chat.completion.chunk", now, model, ⟨some "assistant", some ""⟩, none, none⟩,
    .chunk ⟨completionId, "chat.completion.chunk", now, model, ⟨none, some content⟩, none,
      if images.isEmpty then none else some images⟩,
    .chunk ⟨completionId, "chat.completion.chunk", now, model, ⟨none, none⟩, some "stop", none⟩,
    .doneMarker ]

/-- Concatenation of the `delta.content` fields of the streamed chunks. -/
def concatContentDeltas (items : List StreamItem) : String :=
  items.foldl
    (fun acc it =>
      match it with
      | .chunk c => match c.delta.content with | some s => acc ++ s | none => acc
      | .doneMarker => acc)
    ""

/-- The content of the single-shot response (`choices[0].message.content`). -/
def singleShotContent (r : ChatCompletionObj) : String :=
  match r.choices with
  | c :: _ => c.message.content
  | [] => ""

/-! ## Responses-API streaming emulator (`src/app/endpoints/responses.py`) -/

/-- An output item (`item` dict) of the Responses API: a message with its
content parts, each part modelled as a `(type, text)` pair (the constant
empty `annots` list of the source dicts is omitted). -/
structure RespMsgItem where
  type : String
  id : String
  role : String
  status : String
  content : List (String × String)
deriving DecidableEq

/-- A response object as built by `_build_response_base` (the constant zero
`usage` block is omitted; `images` is the extension field attached only by
`response.completed` / the non-streaming path). -/
structure RespObj where
  id : String
  object : String
  createdAt : Nat
  model : String
  output : List RespMsgItem
  status : String
  images : Option (List ImgDict)
deriving DecidableEq

/-- `_build_response_base` in `src/app/endpoints/responses.py`. -/
def build_response_base (respId model status : String) (createdAt : Nat)
    (output : List RespMsgItem) : RespObj :=
  { id := respId, object := "response", createdAt := createdAt, model := model
    output := output, status := status, images := none }

/-- The seven SSE events of the Responses-API stream, with the payload
fields relevant to protocol correctness. -/
inductive RespEvent
  | created (r : RespObj)
  | outputItemAdded (outputIndex : Nat) (item : RespMsgItem)
  | contentPartAdded (outputIndex contentIndex : Nat) (partType partText : String)
  | outputTextDelta (outputIndex contentIndex : Nat) (delta : String)
  | outputTextDone (outputIndex contentIndex : Nat) (text : String)
  | outputItemDone (outputIndex : Nat) (item : RespMsgItem)
  | completed (r : RespObj)
deriving DecidableEq

/-- The SSE `event:` name of each event. -/
def RespEvent.name : RespEvent → String
  | .created _ => "response.created"
  | .outputItemAdded _ _ => "response.output_item.added"
  | .contentPartAdded _ _ _ _ => "response.content_part.added"
  | .outputTextDelta _ _ _ => "response.output_text.delta"
  | .outputTextDone _ _ _ => "response.output_text.done"
  | .outputItemDone _ _ => "response.output_item.done"
  | .completed _ => "response.completed"

/-- `_stream_responses_api` in `src/app/endpoints/responses.py`.  `respId`
and `msgId` model the `_make_response_id()` / `_make_message_id()` values
generated once at the start; `createdAt` models `int(time.time())`. -/
def stream_responses_api (respId msgId : String) (createdAt : Nat) (text model : String)
    (images : List ImgDict) : List RespEvent :=
  let contentText := contentWithImages text images
  let completedItem : RespMsgItem :=
    ⟨"message", msgId, "assistant", "completed", [("output_text", contentText)]⟩
  [ .created (build_response_base respId model "in_progress" createdAt []),
    .outputItemAdded 0 ⟨"message", msgId, "assistant", "in_progress", []⟩,
    .contentPartAdded 0 0 "output_text" "",
    .outputTextDelta 0 0 contentText,
    .outputTextDone 0 0 contentText,
    .outputItemDone 0 completedItem,
    .completed { build_response_base respId model "completed" createdAt [completedItem] with
                 images := if images.isEmpty then none else some images } ]

/-- The response identifiers an event carries (the `response` objects'
`id` fields). -/
def respIdsOf : RespEvent → List String
  | .created r => [r.id]
  | .completed r => [r.id]
  | _ => []

/-- The message identifiers an event carries (`item.id` fields, including
items nested inside a `response` object's `output`). -/
def msgIdsOf : RespEvent → List String
  | .outputItemAdded _ i => [i.id]
  | .outputItemDone _ i => [i.id]
  | .created r => r.output.map (·.id)
  | .completed r => r.output.map (·.id)
  | _ => []

/-! ## Credential chain and client lifecycle (`src/app/services/gemini_client.py`) -/

/-- Provenance of a credential candidate. -/
inductive CookieSource
  | env
  | config
  | browser
deriving DecidableEq

/-- One credential candidate `(source, 1PSID, 1PSIDTS)`. -/
structure Candidate where
  source : CookieSource
  psid : String
  psidts : String
deriving DecidableEq

/-- `_normalize_cookie`: `None` maps to `""`; a string is stripped of
whitespace, then of double quotes, then of single quotes, at both ends. -/
def normalize_cookie : Option String → String
  | none => ""
  | some v => pyStripChar (Char.ofNat 39) (pyStripChar '"' (pyStripWs v))

/-- `_env_truthy`: `str(value or "").strip().lower() in {"1","true","yes","on"}`. -/
def env_truthy (v : Option String) : Bool :=
  ["1", "true", "yes", "on"].contains (pyLower (pyStripWs (v.getD "")))

/-- The inputs `init_gemini_client` reads: config switch, the two
environment cookies, the two persisted-config cookies, the raw
`DISABLE_BROWSER_COOKIE_FALLBACK` value, and the browser cookie pair
`get_cookie_from_browser` would return (`none` when it finds nothing). -/
structure InitEnv where
  geminiEnabled : Bool
  envPsid : Option String
  envPsidts : Option String
  cfgPsid : Option String
  cfgPsidts : Option String
  disableBrowserEnv : Option String
  browserCookies : Option (String × String)

/-- The outcome of constructing and initializing one session object with a
candidate pair: success, `AuthError`, a network error
(`ConnectionError`/`OSError`/`TimeoutError`), or any other exception. -/
inductive AttemptResult
  | success
  | authError (msg : String)
  | netError (msg : String)
  | otherError (msg : String)
deriving DecidableEq

/-- Whether an attempt outcome is an `AuthError`. -/
def AttemptResult.isAuthErr : AttemptResult → Bool
  | .authError _ => true
  | _ => false

/-- The module-level mutable state of `gemini_client.py`:
`_gemini_client` (here: which source's client is installed, if any),
`_initialization_error` and `_error_code`. -/
structure GeminiState where
  client : Option CookieSource
  error : Option String
  errorCode : Option String
deriving DecidableEq

/-- The candidate-list construction of `init_gemini_client` (lines 49-66):
env pair if both normalized halves are non-empty; config pair if both
halves non-empty and the pair differs from the env pair; browser pair only
when the list is still empty and the browser fallback is not disabled. -/
def build_candidates (e : InitEnv) : List Candidate :=
  let env1 := normalize_cookie e.envPsid
  let env2 := normalize_cookie e.envPsidts
  let cfg1 := normalize_cookie e.cfgPsid
  let cfg2 := normalize_cookie e.cfgPsidts
  let cands1 : List Candidate :=
    if env1 ≠ "" ∧ env2 ≠ "" then [⟨.env, env1, env2⟩] else []
  let cands2 : List Candidate :=
    if cfg1 ≠ "" ∧ cfg2 ≠ "" ∧ (cfg1, cfg2) ≠ (env1, env2) then
      cands1 ++ [⟨.config, cfg1, cfg2⟩]
    else cands1
  if cands2 = [] ∧ env_truthy e.disableBrowserEnv = false then
    match e.browserCookies with
    | some (b1, b2) =>
      let n1 := normalize_cookie (some b1)
      let n2 := normalize_cookie (some b2)
      if n1 ≠ "" ∧ n2 ≠ "" then cands2 ++ [⟨.browser, n1, n2⟩] else cands2
    | none => cands2
  else cands2

/-- The candidate list as the specification phrases it: an env part (only
when both normalized halves are non-empty), then a config part (only when
both halves are non-empty and the pair differs from the env pair), then a
browser part (only when no other candidate was found, the fallback is not
disabled, and the browser supplied a pair with both normalized halves
non-empty), in that order. -/
def spec_candidates (e : InitEnv) : List Candidate :=
  let env1 := normalize_cookie e.envPsid
  let env2 := normalize_cookie e.envPsidts
  let cfg1 := normalize_cookie e.cfgPsid
  let cfg2 := normalize_cookie e.cfgPsidts
  let envPart : List Candidate :=
    if env1 ≠ "" ∧ env2 ≠ "" then [⟨.env, env1, env2⟩] else []
  let cfgPart : List Candidate :=
    if cfg1 ≠ "" ∧ cfg2 ≠ "" ∧ (cfg1, cfg2) ≠ (env1, env2) then [⟨.config, cfg1, cfg2⟩] else []
  let browserPart : List Candidate :=
    if envPart = [] ∧ cfgPart = [] ∧ env_truthy e.disableBrowserEnv = false then
      match e.browserCookies with
      | some (b1, b2) =>
        if normalize_cookie (some b1) ≠ "" ∧ normalize_cookie (some b2) ≠ "" then
          [⟨.browser, normalize_cookie (some b1), normalize_cookie (some b2)⟩]
        else []
      | none => []
    else []
  envPart ++ cfgPart ++ browserPart

/-- The message of the `no_cookies` failure. -/
def noCookiesMsg : String :=
  "Gemini cookies not found. Provide GEMINI_COOKIE_1PSID and GEMINI_COOKIE_1PSIDTS or set them in config."

/-- The default `auth_expired` message when no auth error was recorded. -/
def defaultAuthMsg : String := "Gemini authentication failed."

/-- The candidate loop of `init_gemini_client` (lines 77-108).  `last` is
the `last_auth_error` accumulator.  Success installs the client and stops;
an `AuthError` clears the client and continues; a network or unexpected
error clears the client, records the code, and aborts; exhaustion records
`auth_expired` with the last auth error's message. -/
def try_candidates (attempt : Candidate → AttemptResult) :
    List Candidate → Option String → GeminiState → GeminiState
  | [], last, s =>
    { s with errorCode := some "auth_expired", error := some (last.getD defaultAuthMsg) }
  | c :: rest, last, s =>
    match attempt c with
    | .success => { s with client := some c.source }
    | .authError m => try_candidates attempt rest (some m) { s with client := none }
    | .netError m => { s with client := none, errorCode := some "network", error := some m }
    | .otherError m => { s with client := none, errorCode := some "unknown", error := some m }

/-- `init_gemini_client` in `src/app/services/gemini_client.py`, as a state
transformer on the module state.  It first resets the error fields; a
disabled feature or an empty candidate list records its error code without
touching the stored client; otherwise the candidates are tried in order. -/
def init_gemini_client (e : InitEnv) (attempt : Candidate → AttemptResult)
    (s : GeminiState) : GeminiState :=
  let s0 : GeminiState := { s with error := none, errorCode := none }
  if e.geminiEnabled then
    let cands := build_candidates e
    if cands = [] then
      { s0 with errorCode := some "no_cookies", error := some noCookiesMsg }
    else try_candidates attempt cands none s0
  else
    { s0 with errorCode := some "disabled", error := some "Gemini client is disabled in config." }

/-- The dict returned by `get_client_status`. -/
structure ClientStatus where
  initialized : Bool
  error : Option String
  errorCode : Option String
deriving DecidableEq

/-- `get_client_status` in `src/app/services/gemini_client.py`. -/
def get_client_status (s : GeminiState) : ClientStatus :=
  ⟨s.client.isSome, s.error, s.errorCode⟩

/-- The module state produced by a sequence of `init_gemini_client` calls
(each with its own inputs and attempt outcomes), starting from the initial
state (no client, no error). -/
def init_sequence (steps : List (InitEnv × (Candidate → AttemptResult))) : GeminiState :=
  steps.foldl (fun s p => init_gemini_client p.1 p.2 s) ⟨none, none, none⟩

/-- A concrete input environment: the feature is enabled, both environment
cookies are set (with the whitespace and quote noise `_normalize_cookie`
strips), a distinct persisted-config pair is set, and no browser fallback is
available. -/
def envOnlyEnv : InitEnv :=
  { geminiEnabled := true
    envPsid := some "\"PSID-A\" "
    envPsidts := some " PSIDTS-B"
    cfgPsid := some "PSID-C"
    cfgPsidts := some "PSIDTS-D"
    disableBrowserEnv := none
    browserCookies := none }

/-- `envOnlyEnv` with the feature administratively disabled. -/
def disabledEnv : InitEnv := { envOnlyEnv with geminiEnabled := false }

/-! ## Rotation-persistence tick (`_persist_cookies_loop`) -/

/-- The per-cookie rotation test of one tick: `if new and new != current`,
returning the value to persist when it fires. -/
def rotatedValue (jar : Option String) (cur : String) : Option String :=
  match jar with
  | some v => if v ≠ "" ∧ v ≠ cur then some v else none
  | none => none

/-- One tick of `_persist_cookies_loop` (lines 148-177).  `session` is
`none` when `_gemini_client is None` (tick skipped); otherwise it carries
the two values the live cookie jar reports (`cookies.get`, so each may be
absent).  Returns the persisted-config pair after the tick together with
the number of `write_config` invocations (0 or 1: a single batched write
when at least one value changed). -/
def persist_tick (session : Option (Option String × Option String)) (cfg1 cfg2 : String) :
    (String × String) × Nat :=
  match session with
  | none => ((cfg1, cfg2), 0)
  | some (j1, j2) =>
    let r1 := rotatedValue j1 cfg1
    let r2 := rotatedValue j2 cfg2
    ((r1.getD cfg1, r2.getD cfg2), if r1.isSome || r2.isSome then 1 else 0)

/-! ## Request-edge error classification (`chat.py`, `gemini.py`, `responses.py`) -/

/-- The HTTP status and notification category a handler's `except` block
produces for an upstream error message. -/
structure ErrOutcome where
  status : Nat
  notifyCategory : Option String
deriving DecidableEq

/-- The auth classification shared by all handlers:
`"auth" in err.lower() or "cookie" in err.lower()`. -/
def is_auth_class (err : String) : Bool :=
  pyIn "auth" (pyLower err) || pyIn "cookie" (pyLower err)

/-- The transient-stream classification:
`"zombie" in e or "parse" in e or "stalled" in e`. -/
def is_transient_class (err : String) : Bool :=
  pyIn "zombie" (pyLower err) || pyIn "parse" (pyLower err) || pyIn "stalled" (pyLower err)

/-- The `except` block of `chat_completions` (`src/app/endpoints/chat.py`
lines 393-408): auth errors notify under `auth` and raise 401; transient
stream errors notify under `503` and raise 503; anything else notifies
under `500` and raises 500. -/
def chat_completions_error (err : String) : ErrOutcome :=
  if is_auth_class err then ⟨401, some "auth"⟩
  else if is_transient_class err then ⟨503, some "503"⟩
  else ⟨500, some "500"⟩

/-- The `except` block of `gemini_generate` and `gemini_chat`
(`src/app/endpoints/gemini.py`): the notifier is invoked under `auth` or
`500` according to the classification, but both branches fall through to
`raise HTTPException(status_code=500, ...)`. -/
def gemini_endpoint_error (err : String) : ErrOutcome :=
  if is_auth_class err then ⟨500, some "auth"⟩ else ⟨500, some "500"⟩

/-- The `except` block of `create_response` (`src/app/endpoints/responses.py`
lines 294-305): same status classification as `chat_completions` but no
notifier call on any branch. -/
def responses_endpoint_error (err : String) : ErrOutcome :=
  if is_auth_class err then ⟨401, none⟩
  else if is_transient_class err then ⟨503, none⟩
  else ⟨500, none⟩

/-! ## Theorems -/

/-- Claim C6, counterexample: the string `" gemini-ultra"` (leading space)
has no alias-table entry under its lower-cased form and contains none of the
heuristic substrings `thinking`/`pro`/`flash`, so the claim predicts the
default (flash) model; the code strips whitespace before the alias lookup
and returns the high-capability `pro` model. -/
theorem resolve_model_counterexample :
    aliasLookup (pyLower " gemini-ultra") = none ∧
    pyIn "thinking" (pyLower " gemini-ultra") = false ∧
    pyIn "pro" (pyLower " gemini-ultra") = false ∧
    pyIn "flash" (pyLower " gemini-ultra") = false ∧
    resolve_model (some " gemini-ultra") = GeminiModels.pro := by decide

/-- Claim C6 (amended): model resolution is total and follows the documented
priority after normalizing the input by trimming surrounding whitespace and
lower-casing: empty/absent input resolves to the default (flash) model; a
normalized form in the alias table returns the exact mapped model; otherwise
a normalized form containing `thinking` gives the reasoning variant, else
containing `pro` the high-capability variant, else (containing `flash` or
nothing recognizable) the default variant. -/
theorem resolve_model_priority :
    (resolve_model none = GeminiModels.flash ∧ resolve_model (some "") = GeminiModels.flash) ∧
    (∀ s m, aliasLookup (pyLower (pyStripWs s)) = some m → resolve_model (some s) = m) ∧
    (∀ s, aliasLookup (pyLower (pyStripWs s)) = none →
      pyIn "thinking" (pyLower (pyStripWs s)) = true →
      resolve_model (some s) = GeminiModels.flashThinking) ∧
    (∀ s, aliasLookup (pyLower (pyStripWs s)) = none →
      pyIn "thinking" (pyLower (pyStripWs s)) = false →
      pyIn "pro" (pyLower (pyStripWs s)) = true →
      resolve_model (some s) = GeminiModels.pro) ∧
    (∀ s, aliasLookup (pyLower (pyStripWs s)) = none →
      pyIn "thinking" (pyLower (pyStripWs s)) = false →
      pyIn "pro" (pyLower (pyStripWs s)) = false →
      resolve_model (some s) = GeminiModels.flash) := by
  refine ⟨⟨rfl, rfl⟩, ?_, ?_, ?_, ?_⟩
  · intro s m h
    by_cases h0 : s = ""
    · rw [h0] at h
      exact Option.noConfusion h
    · simp only [resolve_model, if_neg h0, h]
  · intro s h h1
    by_cases h0 : s = ""
    · rw [h0] at h1
      exact absurd h1 (by decide)
    · simp [resolve_model, if_neg h0, h, h1]
  · intro s h h1 h2
    by_cases h0 : s = ""
    · rw [h0] at h2
      exact absurd h2 (by decide)
    · simp [resolve_model, if_neg h0, h, h1, h2]
  · intro s h h1 h2
    by_cases h0 : s = ""
    · simp [resolve_model, h0]
    · simp [resolve_model, if_neg h0, h, h1, h2]

/-- Witness for `resolve_model_priority` at concrete inputs: an alias-table
hit (mixed case, surrounding whitespace) and a heuristic `thinking` hit. -/
theorem resolve_model_priority_witness :
    resolve_model (some " Gemini-1.5-Pro ") = GeminiModels.pro ∧
    resolve_model (some "gemini-3-flash-THINKING-exp") = GeminiModels.flashThinking :=
  ⟨resolve_model_priority.2.1 " Gemini-1.5-Pro " GeminiModels.pro (by decide),
   resolve_model_priority.2.2.1 "gemini-3-flash-THINKING-exp" (by decide) (by decide)⟩

/-- Claim C5: for every generated response (any text and any image list) the
chat-completions single-shot builder and the streaming emulator agree — the
concatenation of the streamed content deltas equals the `content` field of
the single-shot response (text with image markdown appended when present),
for any pair of timestamps and for both `stream` flags. -/
theorem stream_matches_single_shot (n1 n2 : Nat) (text model : String)
    (images : List ImgDict) (stream : Bool) :
    concatContentDeltas (stream_response n1 text model images) =
      singleShotContent (to_openai_format n2 text model images stream) := rfl

/-- Claim C4: the Responses-API streaming emulator emits exactly the 7 named
events in the fixed order; every response identifier occurring in the
sequence is the single `respId` and every message identifier the single
`msgId`, both generated once at the start; the creation event is
`in_progress`; the single text delta and the text-done event both carry the
full content; the content-part placeholder is empty; the completed item and
completed response have status `completed` with the full content, the latter
carrying the image list as an extension field exactly when it is non-empty. -/
theorem responses_stream_seven_events (respId msgId : String) (createdAt : Nat)
    (text model : String) (images : List ImgDict) :
    (stream_responses_api respId msgId createdAt text model images).map RespEvent.name =
      ["response.created", "response.output_item.added", "response.content_part.added",
       "response.output_text.delta", "response.output_text.done",
       "response.output_item.done", "response.completed"] ∧
    ((stream_responses_api respId msgId createdAt text model images).map respIdsOf).flatten =
      [respId, respId] ∧
    ((stream_responses_api respId msgId createdAt text model images).map msgIdsOf).flatten =
      [msgId, msgId, msgId] ∧
    (stream_responses_api respId msgId createdAt text model images).filterMap
      (fun e => match e with | .outputTextDelta _ _ d => some d | _ => none) =
      [contentWithImages text images] ∧
    (stream_responses_api respId msgId createdAt text model images).filterMap
      (fun e => match e with | .outputTextDone _ _ t => some t | _ => none) =
      [contentWithImages text images] ∧
    (stream_responses_api respId msgId createdAt text model images).filterMap
      (fun e => match e with | .contentPartAdded _ _ pt s => some (pt, s) | _ => none) =
      [("output_text", "")] ∧
    (stream_responses_api respId msgId createdAt text model images).filterMap
      (fun e => match e with | .created r => some r.status | _ => none) =
      ["in_progress"] ∧
    (stream_responses_api respId msgId createdAt text model images).filterMap
      (fun e => match e with | .outputItemDone _ i => some (i.status, i.content) | _ => none) =
      [("completed", [("output_text", contentWithImages text images)])] ∧
    (stream_responses_api respId msgId createdAt text model images).filterMap
      (fun e => match e with | .completed r => some (r.status, r.images) | _ => none) =
      [("completed", if images.isEmpty then none else some images)] :=
  ⟨rfl, rfl, rfl, rfl, rfl, rfl, rfl, rfl, rfl⟩

/-- A non-trivial prefix determines the head of the list. -/
theorem listPre_head {c : Char} {p l : List Char} (h : listPre (c :: p) l = true) :
    ∃ t, l = c :: t := by
  cases l with
  | nil => simp [listPre] at h
  | cons b t =>
    simp only [listPre, Bool.and_eq_true, beq_iff_eq] at h
    exact ⟨t, by rw [h.1]⟩

/-- A string starting with `file://` does not start with `data:`. -/
theorem pyStartsWith_file_ne_data {url : String} (h : pyStartsWith url "file://" = true) :
    pyStartsWith url "data:" = false := by
  have h' : listPre ('f' :: "ile://".data) url.data = true := h
  obtain ⟨t, ht⟩ := listPre_head h'
  show listPre ('d' :: "ata:".data) url.data = false
  rw [ht]
  simp [listPre]

/-- A string starting with a non-empty literal is non-empty. -/
theorem startsWith_cons_ne_empty (c : Char) (cs : List Char) {url : String}
    (h : listPre (c :: cs) url.data = true) : url ≠ "" := by
  obtain ⟨t, ht⟩ := listPre_head h
  intro he
  subst he
  exact List.noConfusion ht

/-- Claim C9, counterexample: the extractor does propagate exceptions for
malformed individual parts.  A text part whose `text` value is a truthy
non-string (e.g. `{"type":"text","text":5}`) is collected and makes the
final `" ".join(text_parts)` raise `TypeError`; an image part whose
dict-valued `image_url` carries a truthy non-string `"url"` (e.g.
`{"type":"image_url","image_url":{"url":123}}`) raises `AttributeError` at
`url.startswith("data:")`.  Both escape `_extract_multimodal_content`
instead of yielding a text/file-list pair. -/
theorem extractor_nonstring_raises :
    extract_multimodal_content uploadRefCtx
      (.parts [.mk (.pstr "text") (.other true) (.dict (.pstr ""))]) =
      .error .typeError ∧
    extract_multimodal_content uploadRefCtx
      (.parts [.mk (.pstr "image_url") (.pstr "") (.dict (.other true))]) =
      .error .attributeError :=
  ⟨rfl, rfl⟩

/-- Claim C9 (amended): the content extractor never propagates an exception
from the handling of a malformed individual part *whose field values are
strings*: a data URI that fails to decode (malformed prefix or undecodable
payload — both a `ValueError`, which the extractor catches) contributes
nothing; a part with an unrecognized type tag (string or not) contributes
nothing; an image part with an unsupported URL scheme contributes nothing;
non-dict parts are skipped; string / non-list content always yields a plain
text/file pair.  However, a text part carrying a truthy non-string text
value makes the final join raise `TypeError`, and an image part whose
dict-valued `image_url` carries a truthy non-string url raises
`AttributeError` — both propagating out of the extractor. -/
theorem extractor_part_tolerance :
    (∀ ctx st ptype text iu u msg,
      (ptype = PyVal.pstr "image_url" ∨ ptype = PyVal.pstr "input_image") →
      urlValue iu = .pstr u →
      pyStartsWith u "data:" = true →
      decode_base64_to_tempfile ctx st.1 u = .error msg →
      processPart ctx st (.mk ptype text iu) = .ok st) ∧
    (∀ ctx st ptype text iu,
      ptype ≠ PyVal.pstr "text" → ptype ≠ PyVal.pstr "input_text" →
      ptype ≠ PyVal.pstr "image_url" → ptype ≠ PyVal.pstr "input_image" →
      processPart ctx st (.mk ptype text iu) = .ok st) ∧
    (∀ ctx st ptype text iu u,
      (ptype = PyVal.pstr "image_url" ∨ ptype = PyVal.pstr "input_image") →
      urlValue iu = .pstr u → u ≠ "" →
      pyStartsWith u "data:" = false → pyStartsWith u "file://" = false →
      pyStartsWith u "http://" = false → pyStartsWith u "https://" = false →
      processPart ctx st (.mk ptype text iu) = .ok st) ∧
    (∀ ctx st, processPart ctx st .nonDict = .ok st) ∧
    (∀ ctx s, extract_multimodal_content ctx (.str s) = .ok (s, [])) ∧
    (∀ ctx truthy strForm, extract_multimodal_content ctx (.other truthy strForm) =
      .ok (if truthy then strForm else "", [])) ∧
    (∀ ctx iu, extract_multimodal_content ctx
      (.parts [.mk (.pstr "text") (.other true) iu]) = .error .typeError) ∧
    (∀ ctx ptype text,
      (ptype = PyVal.pstr "image_url" ∨ ptype = PyVal.pstr "input_image") →
      extract_multimodal_content ctx
        (.parts [.mk ptype text (.dict (.other true))]) = .error .attributeError) := by
  refine ⟨?_, ?_, ?_, fun ctx st => rfl, fun ctx s => rfl, fun ctx t f => rfl,
    fun ctx iu => rfl, ?_⟩
  · intro ctx st ptype text iu u msg hty hiu hdata hdec
    have hne : u ≠ "" :=
      startsWith_cons_ne_empty 'd' "ata:".data hdata
    have hnt : ¬(ptype = PyVal.pstr "text" ∨ ptype = PyVal.pstr "input_text") := by
      rcases hty with h | h <;> subst h <;> decide
    simp [processPart, hnt, hty, hiu, hne, hdata, hdec]
  · intro ctx st ptype text iu h1 h2 h3 h4
    simp [processPart, h1, h2, h3, h4]
  · intro ctx st ptype text iu u hty hiu hne hdata hfile hhttp hhttps
    have hnt : ¬(ptype = PyVal.pstr "text" ∨ ptype = PyVal.pstr "input_text") := by
      rcases hty with h | h <;> subst h <;> decide
    simp [processPart, hnt, hty, hiu, hne, hdata, hfile, hhttp, hhttps]
  · intro ctx ptype text hty
    rcases hty with h | h <;> subst h <;> rfl

/-- Witness for `extractor_part_tolerance`: a data URI missing the `,`
separator (regex mismatch, `ValueError`), an unknown part type, and an
unsupported `ftp://` scheme each leave the extraction state unchanged,
while a non-string text value and a non-string url value raise. -/
theorem extractor_part_tolerance_witness :
    processPart uploadRefCtx (0, [], [])
      (.mk (.pstr "image_url") (.pstr "") (.dict (.pstr "data:image/png;base64"))) =
      .ok (0, [], []) ∧
    processPart uploadRefCtx (0, [], [])
      (.mk (.pstr "refusal") (.pstr "x") (.dict (.pstr "y"))) = .ok (0, [], []) ∧
    processPart uploadRefCtx (0, [], [])
      (.mk (.pstr "input_image") (.pstr "") (.nonDict "ftp://host/a.png")) = .ok (0, [], []) ∧
    extract_multimodal_content uploadRefCtx
      (.parts [.mk (.pstr "text") (.other true) (.nonDict "")]) = .error .typeError ∧
    extract_multimodal_content uploadRefCtx
      (.parts [.mk (.pstr "input_image") (.pstr "ignored") (.dict (.other true))]) =
      .error .attributeError :=
  ⟨extractor_part_tolerance.1 uploadRefCtx (0, [], []) (.pstr "image_url") (.pstr "")
      (.dict (.pstr "data:image/png;base64")) "data:image/png;base64"
      "Invalid data URI" (Or.inl rfl) rfl (by decide) rfl,
   extractor_part_tolerance.2.1 uploadRefCtx (0, [], []) (.pstr "refusal") (.pstr "x")
      (.dict (.pstr "y")) (by decide) (by decide) (by decide) (by decide),
   extractor_part_tolerance.2.2.1 uploadRefCtx (0, [], []) (.pstr "input_image") (.pstr "")
      (.nonDict "ftp://host/a.png") "ftp://host/a.png"
      (Or.inr rfl) rfl (by decide) (by decide) (by decide) (by decide) (by decide),
   extractor_part_tolerance.2.2.2.2.2.2.1 uploadRefCtx (.nonDict ""),
   extractor_part_tolerance.2.2.2.2.2.2.2 uploadRefCtx (.pstr "input_image")
      (.pstr "ignored") (Or.inr rfl)⟩

/-- Claim C8: no operation touches files outside the designated temp root —
a `file://` identifier containing a path separator or a parent-directory
sequence is rejected by the extractor (the part contributes nothing), and
every path `cleanup_temp_files` deletes is relative to the process temp
directory. -/
theorem traversal_guard :
    (∀ ctx st ptype text iu u,
      (ptype = PyVal.pstr "image_url" ∨ ptype = PyVal.pstr "input_image") →
      urlValue iu = .pstr u →
      pyStartsWith u "file://" = true →
      (pyIn "/" (⟨u.data.drop 7⟩ : String) = true ∨
       pyIn "\\" (⟨u.data.drop 7⟩ : String) = true ∨
       pyIn ".." (⟨u.data.drop 7⟩ : String) = true) →
      processPart ctx st (.mk ptype text iu) = .ok st) ∧
    (∀ ctx paths p, p ∈ cleanup_temp_files ctx paths → isRelativeTo ctx.tempDir p = true) := by
  constructor
  · intro ctx st ptype text iu u hty hiu hfile htr
    have hne : u ≠ "" :=
      startsWith_cons_ne_empty 'f' "ile://".data hfile
    have hnt : ¬(ptype = PyVal.pstr "text" ∨ ptype = PyVal.pstr "input_text") := by
      rcases hty with h | h <;> subst h <;> decide
    have hdata : pyStartsWith u "data:" = false := pyStartsWith_file_ne_data hfile
    have hsan : ¬(pyIn "/" (⟨u.data.drop 7⟩ : String) = false ∧
        pyIn "\\" (⟨u.data.drop 7⟩ : String) = false ∧
        pyIn ".." (⟨u.data.drop 7⟩ : String) = false) := by
      rcases htr with h | h | h <;> simp [h]
    simp [processPart, hnt, hty, hiu, hne, hdata, hfile, hsan]
  · intro ctx paths p hp
    simp only [cleanup_temp_files, List.mem_filter, Bool.and_eq_true] at hp
    exact hp.2.2

/-- Witness for `traversal_guard`: a traversal attempt
`file://../etc/passwd` is rejected, and the path inside the temp directory
that the concrete cleanup run deletes is indeed relative to it. -/
theorem traversal_guard_witness :
    processPart uploadRefCtx (0, [], [])
      (.mk (.pstr "image_url") (.pstr "") (.dict (.pstr "file://../etc/passwd"))) =
      .ok (0, [], []) ∧
    isRelativeTo uploadRefCtx.tempDir "/tmp/webai/upload1.png" = true :=
  ⟨traversal_guard.1 uploadRefCtx (0, [], []) (.pstr "image_url") (.pstr "")
      (.dict (.pstr "file://../etc/passwd")) "file://../etc/passwd"
      (Or.inl rfl) rfl (by decide) (Or.inl (by decide)),
   traversal_guard.2 uploadRefCtx ["/tmp/webai/upload1.png"] "/tmp/webai/upload1.png"
      (by decide)⟩

/-- Claim C7: rotation-persistence write discipline.  An absent session
skips the tick without error or state change; if both jar values are empty
or equal to the persisted values, no write happens; if at least one value
differs and is non-empty, exactly one (batched) write happens; and when both
jar values are present and non-empty, that single write carries both current
jar values. -/
theorem persist_tick_write_discipline :
    (∀ cfg1 cfg2, persist_tick none cfg1 cfg2 = ((cfg1, cfg2), 0)) ∧
    (∀ j1 j2 cfg1 cfg2,
      (∀ v, j1 = some v → v = "" ∨ v = cfg1) →
      (∀ v, j2 = some v → v = "" ∨ v = cfg2) →
      persist_tick (some (j1, j2)) cfg1 cfg2 = ((cfg1, cfg2), 0)) ∧
    (∀ j1 j2 cfg1 cfg2,
      ((∃ v, j1 = some v ∧ v ≠ "" ∧ v ≠ cfg1) ∨ (∃ v, j2 = some v ∧ v ≠ "" ∧ v ≠ cfg2)) →
      (persist_tick (some (j1, j2)) cfg1 cfg2).2 = 1) ∧
    (∀ v1 v2 cfg1 cfg2, v1 ≠ "" → v2 ≠ "" → (v1 ≠ cfg1 ∨ v2 ≠ cfg2) →
      persist_tick (some (some v1, some v2)) cfg1 cfg2 = ((v1, v2), 1)) := by
  refine ⟨fun c1 c2 => rfl, ?_, ?_, ?_⟩
  · intro j1 j2 c1 c2 h1 h2
    have e1 : rotatedValue j1 c1 = none := by
      cases j1 with
      | none => rfl
      | some v => rcases h1 v rfl with h | h <;> simp [rotatedValue, h]
    have e2 : rotatedValue j2 c2 = none := by
      cases j2 with
      | none => rfl
      | some v => rcases h2 v rfl with h | h <;> simp [rotatedValue, h]
    simp [persist_tick, e1, e2]
  · intro j1 j2 c1 c2 h
    rcases h with ⟨v, hv, hne, hdiff⟩ | ⟨v, hv, hne, hdiff⟩ <;> subst hv <;>
      simp [persist_tick, rotatedValue, hne, hdiff]
  · intro v1 v2 c1 c2 h1 h2 h3
    by_cases e1 : v1 = c1
    · rcases h3 with h | h
      · exact absurd e1 h
      · subst e1
        simp [persist_tick, rotatedValue, h2, h]
    · by_cases e2 : v2 = c2
      · subst e2
        simp [persist_tick, rotatedValue, h1, e1]
      · simp [persist_tick, rotatedValue, h1, e1, h2, e2]

/-- Witness for `persist_tick_write_discipline` at concrete inputs: a
skipped absent-session tick, an unchanged tick with no write, and a rotated
tick writing both current values exactly once. -/
theorem persist_tick_write_discipline_witness :
    persist_tick none "a" "b" = (("a", "b"), 0) ∧
    persist_tick (some (some "a", none)) "a" "b" = (("a", "b"), 0) ∧
    persist_tick (some (some "a", some "y")) "a" "b" = (("a", "y"), 1) :=
  ⟨persist_tick_write_discipline.1 "a" "b",
   persist_tick_write_discipline.2.1 (some "a") none "a" "b"
      (fun v hv => by simp at hv; exact Or.inr hv.symm) (fun v hv => by simp at hv),
   persist_tick_write_discipline.2.2.2 "a" "y" "a" "b" (by decide) (by decide)
      (Or.inr (by decide))⟩

/-- Claim C10, counterexample: an upstream failure on `/gemini` whose
message marks it as authentication-class is notified under `auth` but
surfaced with HTTP status 500, not 401. -/
theorem gemini_auth_error_status_counterexample :
    is_auth_class "AuthError: authentication failed" = true ∧
    gemini_endpoint_error "AuthError: authentication failed" = ⟨500, some "auth"⟩ ∧
    (gemini_endpoint_error "AuthError: authentication failed").status ≠ 401 := by decide

/-- Claim C10 (amended): for every upstream error message of the
authentication class (`auth`/`cookie` in the lower-cased message),
`/v1/chat/completions` surfaces 401 and notifies under `auth`;
`/v1/responses` surfaces 401 without invoking the notifier; `/gemini` and
`/gemini-chat` invoke the notifier under `auth` but surface 500. -/
theorem auth_error_surfacing (err : String) (h : is_auth_class err = true) :
    chat_completions_error err = ⟨401, some "auth"⟩ ∧
    responses_endpoint_error err = ⟨401, none⟩ ∧
    gemini_endpoint_error err = ⟨500, some "auth"⟩ := by
  simp [chat_completions_error, responses_endpoint_error, gemini_endpoint_error, h]

/-- Witness for `auth_error_surfacing` at a concrete auth-class message. -/
theorem auth_error_surfacing_witness :
    chat_completions_error "Gemini cookie expired" = ⟨401, some "auth"⟩ ∧
    responses_endpoint_error "Gemini cookie expired" = ⟨401, none⟩ ∧
    gemini_endpoint_error "Gemini cookie expired" = ⟨500, some "auth"⟩ :=
  auth_error_surfacing "Gemini cookie expired" (by decide)

/-- An attempt outcome with `isAuthErr` set is an `authError`. -/
theorem isAuthErr_exists {a : Candidate → AttemptResult} {p : Candidate}
    (hp : (a p).isAuthErr = true) : ∃ m, a p = .authError m := by
  rcases h : a p with _ | m | m | m
  · rw [h] at hp; exact absurd hp (by simp [AttemptResult.isAuthErr])
  · exact ⟨m, rfl⟩
  · rw [h] at hp; exact absurd hp (by simp [AttemptResult.isAuthErr])
  · rw [h] at hp; exact absurd hp (by simp [AttemptResult.isAuthErr])

/-- `init_gemini_client` with the feature enabled and a non-empty candidate
list runs the candidate loop on the reset state. -/
theorem init_gemini_client_try (e : InitEnv) (a : Candidate → AttemptResult)
    (s : GeminiState) (hEn : e.geminiEnabled = true) (hne : build_candidates e ≠ []) :
    init_gemini_client e a s =
      try_candidates a (build_candidates e) none { s with error := none, errorCode := none } := by
  simp [init_gemini_client, hEn, hne]

/-- Auth failures on a prefix of the candidate list are skipped, and the
first success installs that candidate's client without touching the error
fields. -/
theorem try_candidates_success (a : Candidate → AttemptResult) (c : Candidate)
    (hc : a c = .success) :
    ∀ (pre post : List Candidate) (last : Option String) (s : GeminiState),
      (∀ c' ∈ pre, (a c').isAuthErr = true) →
      try_candidates a (pre ++ c :: post) last s = { s with client := some c.source } := by
  intro pre
  induction pre with
  | nil =>
    intro post last s _
    simp [try_candidates, hc]
  | cons p ps ih =>
    intro post last s hpre
    obtain ⟨m, hm⟩ := isAuthErr_exists (hpre p (List.mem_cons_self _ _))
    simp only [List.cons_append, try_candidates, hm, List.append_eq]
    rw [ih post (some m) { s with client := none }
      (fun c' hc' => hpre c' (List.mem_cons_of_mem _ hc'))]

/-- Auth failures on a prefix are skipped, and a network failure aborts the
whole sequence with code `network`, independently of any later candidates. -/
theorem try_candidates_network (a : Candidate → AttemptResult) (c : Candidate) (m : String)
    (hc : a c = .netError m) :
    ∀ (pre post : List Candidate) (last : Option String) (s : GeminiState),
      (∀ c' ∈ pre, (a c').isAuthErr = true) →
      try_candidates a (pre ++ c :: post) last s = ⟨none, some m, some "network"⟩ := by
  intro pre
  induction pre with
  | nil =>
    intro post last s _
    simp [try_candidates, hc]
  | cons p ps ih =>
    intro post last s hpre
    obtain ⟨m', hm'⟩ := isAuthErr_exists (hpre p (List.mem_cons_self _ _))
    simp only [List.cons_append, try_candidates, hm', List.append_eq]
    exact ih post (some m') { s with client := none }
      (fun c' hc' => hpre c' (List.mem_cons_of_mem _ hc'))

/-- When every candidate fails with an auth error, the sequence ends with
code `auth_expired` carrying the last auth error's message. -/
theorem try_candidates_exhaust (a : Candidate → AttemptResult) (c : Candidate) (m : String)
    (hc : a c = .authError m) :
    ∀ (pre : List Candidate) (last : Option String) (s : GeminiState),
      (∀ c' ∈ pre, (a c').isAuthErr = true) →
      try_candidates a (pre ++ [c]) last s = ⟨none, some m, some "auth_expired"⟩ := by
  intro pre
  induction pre with
  | nil =>
    intro last s _
    simp [try_candidates, hc]
  | cons p ps ih =>
    intro last s hpre
    obtain ⟨m', hm'⟩ := isAuthErr_exists (hpre p (List.mem_cons_self _ _))
    simp only [List.cons_append, try_candidates, hm', List.append_eq]
    exact ih (some m') { s with client := none }
      (fun c' hc' => hpre c' (List.mem_cons_of_mem _ hc'))

/-- Claim C1: credential chain construction and attempt order.  The
candidate list built by `init_gemini_client` equals the spec-ordered list
(env pair first, then a distinct persisted-config pair, then the browser
pair only when nothing else was found and the fallback is not disabled);
candidates before the first non-auth outcome are tried in order with auth
failures skipped; the first success installs that candidate's client; a
network failure aborts immediately with code `network` regardless of the
remaining candidates; exhausting the list with only auth failures yields
`auth_expired` carrying the last auth error's message. -/
theorem credential_chain_order :
    (∀ e, build_candidates e = spec_candidates e) ∧
    (∀ e a s pre c post, e.geminiEnabled = true →
      build_candidates e = pre ++ c :: post →
      (∀ c' ∈ pre, (a c').isAuthErr = true) →
      a c = .success →
      init_gemini_client e a s = ⟨some c.source, none, none⟩) ∧
    (∀ e a s pre c post m, e.geminiEnabled = true →
      build_candidates e = pre ++ c :: post →
      (∀ c' ∈ pre, (a c').isAuthErr = true) →
      a c = .netError m →
      init_gemini_client e a s = ⟨none, some m, some "network"⟩) ∧
    (∀ e a s pre c m, e.geminiEnabled = true →
      build_candidates e = pre ++ [c] →
      (∀ c' ∈ pre, (a c').isAuthErr = true) →
      a c = .authError m →
      init_gemini_client e a s = ⟨none, some m, some "auth_expired"⟩) := by
  refine ⟨?_, ?_, ?_, ?_⟩
  · intro e
    rcases hB : e.browserCookies with _ | ⟨b1, b2⟩ <;>
      simp only [build_candidates, spec_candidates, hB] <;>
      split_ifs <;> simp_all
  · intro e a s pre c post hEn hbc hpre hc
    have hne : build_candidates e ≠ [] := by rw [hbc]; simp
    rw [init_gemini_client_try e a s hEn hne, hbc]
    exact try_candidates_success a c hc pre post none _ hpre
  · intro e a s pre c post m hEn hbc hpre hc
    have hne : build_candidates e ≠ [] := by rw [hbc]; simp
    rw [init_gemini_client_try e a s hEn hne, hbc]
    exact try_candidates_network a c m hc pre post none _ hpre
  · intro e a s pre c m hEn hbc hpre hc
    have hne : build_candidates e ≠ [] := by rw [hbc]; simp
    rw [init_gemini_client_try e a s hEn hne, hbc]
    exact try_candidates_exhaust a c m hc pre none _ hpre

/-- Witness for `credential_chain_order` on the concrete `envOnlyEnv`
(candidates: env pair, then config pair): all-success installs the env
client; an env auth failure followed by a config network failure aborts
with `network`; two auth failures exhaust with `auth_expired` carrying the
config (last) message. -/
theorem credential_chain_order_witness :
    init_gemini_client envOnlyEnv (fun _ => .success) ⟨none, none, none⟩ =
      ⟨some CookieSource.env, none, none⟩ ∧
    init_gemini_client envOnlyEnv
      (fun c => if c.source = CookieSource.env then .authError "bad env" else .netError "net down")
      ⟨none, none, none⟩ = ⟨none, some "net down", some "network"⟩ ∧
    init_gemini_client envOnlyEnv
      (fun c => if c.source = CookieSource.env then .authError "bad env" else .authError "bad cfg")
      ⟨none, none, none⟩ = ⟨none, some "bad cfg", some "auth_expired"⟩ :=
  ⟨credential_chain_order.2.1 envOnlyEnv (fun _ => .success) ⟨none, none, none⟩
      [] ⟨.env, "PSID-A", "PSIDTS-B"⟩ [⟨.config, "PSID-C", "PSIDTS-D"⟩]
      rfl rfl (by simp) rfl,
   credential_chain_order.2.2.1 envOnlyEnv _ ⟨none, none, none⟩
      [⟨.env, "PSID-A", "PSIDTS-B"⟩] ⟨.config, "PSID-C", "PSIDTS-D"⟩ [] "net down"
      rfl rfl (by decide) rfl,
   credential_chain_order.2.2.2 envOnlyEnv _ ⟨none, none, none⟩
      [⟨.env, "PSID-A", "PSIDTS-B"⟩] ⟨.config, "PSID-C", "PSIDTS-D"⟩ "bad cfg"
      rfl rfl (by decide) rfl⟩

/-- Claim C2, counterexample: after a successful initialization, a
re-initialization that takes the `disabled` exit leaves the previous client
installed (the branch never clears `_gemini_client`) while recording error
code `disabled` — so a non-null stored client coexists with a non-null
error code, and `get_client_status` reports `initialized = true` together
with error code `"disabled"`. -/
theorem status_consistency_counterexample :
    (init_sequence [(envOnlyEnv, fun _ => .success),
        (disabledEnv, fun _ => .success)]).client.isSome = true ∧
    get_client_status (init_sequence [(envOnlyEnv, fun _ => .success),
        (disabledEnv, fun _ => .success)]) =
      ⟨true, some "Gemini client is disabled in config.", some "disabled"⟩ ∧
    (get_client_status (init_sequence [(envOnlyEnv, fun _ => .success),
        (disabledEnv, fun _ => .success)])).errorCode ≠ none :=
  ⟨rfl, rfl, fun h => Option.noConfusion h⟩

/-- The candidate loop started with clear error fields leaves the error
fields clear whenever it ends with an installed client (the caller must
ensure the loop is not entered on an empty list unless the client is
already cleared). -/
theorem try_candidates_code_inv (a : Candidate → AttemptResult) :
    ∀ (cs : List Candidate) (last : Option String) (s : GeminiState),
      s.errorCode = none → (s.client = none ∨ cs ≠ []) →
      (try_candidates a cs last s).client.isSome = true →
      (try_candidates a cs last s).errorCode = none := by
  intro cs
  induction cs with
  | nil =>
    intro last s hcode hcl hsome
    rcases hcl with hcl | hcl
    · rw [show try_candidates a [] last s =
          { s with errorCode := some "auth_expired",
                   error := some (last.getD defaultAuthMsg) } from rfl] at hsome
      simp [hcl] at hsome
    · exact absurd rfl hcl
  | cons c rest ih =>
    intro last s hcode hcl hsome
    rcases h : a c with _ | m | m | m
    · simpa [try_candidates, h] using hcode
    · rw [show try_candidates a (c :: rest) last s =
          try_candidates a rest (some m) { s with client := none } from by
            simp [try_candidates, h]] at hsome ⊢
      exact ih (some m) { s with client := none } hcode (Or.inl rfl) hsome
    · rw [show try_candidates a (c :: rest) last s =
          ⟨none, some m, some "network"⟩ from by simp [try_candidates, h]] at hsome
      simp at hsome
    · rw [show try_candidates a (c :: rest) last s =
          ⟨none, some m, some "unknown"⟩ from by simp [try_candidates, h]] at hsome
      simp at hsome

/-- After any single `init_gemini_client` call, an installed client implies
the error code is `none`, `"disabled"` or `"no_cookies"` (the latter two
branches leave a stale client from an earlier success). -/
theorem init_step_code_inv (e : InitEnv) (a : Candidate → AttemptResult) (s : GeminiState)
    (h : (init_gemini_client e a s).client.isSome = true) :
    (init_gemini_client e a s).errorCode = none ∨
    (init_gemini_client e a s).errorCode = some "disabled" ∨
    (init_gemini_client e a s).errorCode = some "no_cookies" := by
  by_cases hEn : e.geminiEnabled = true
  · by_cases hne : build_candidates e = []
    · right; right
      simp [init_gemini_client, hEn, hne]
    · rw [init_gemini_client_try e a s hEn hne] at h ⊢
      exact Or.inl (try_candidates_code_inv a (build_candidates e) none
        { s with error := none, errorCode := none } rfl (Or.inr hne) h)
  · right; left
    have hEn' : e.geminiEnabled = false := by
      cases hb : e.geminiEnabled
      · rfl
      · exact absurd hb hEn
    simp [init_gemini_client, hEn']

/-- The invariant of `init_step_code_inv` is preserved by any sequence of
initialization steps from any state already satisfying it. -/
theorem foldl_init_code_inv (steps : List (InitEnv × (Candidate → AttemptResult))) :
    ∀ s : GeminiState,
      (s.client.isSome = true →
        s.errorCode = none ∨ s.errorCode = some "disabled" ∨ s.errorCode = some "no_cookies") →
      ((steps.foldl (fun s p => init_gemini_client p.1 p.2 s) s).client.isSome = true →
        (steps.foldl (fun s p => init_gemini_client p.1 p.2 s) s).errorCode = none ∨
        (steps.foldl (fun s p => init_gemini_client p.1 p.2 s) s).errorCode = some "disabled" ∨
        (steps.foldl (fun s p => init_gemini_client p.1 p.2 s) s).errorCode = some "no_cookies") := by
  induction steps with
  | nil => intro s hs; exact hs
  | cons step rest ih =>
    intro s _
    exact ih (init_gemini_client step.1 step.2 s) (init_step_code_inv step.1 step.2 s)

/-- Claim C2 (amended): for every sequence of initialize calls, whenever the
stored client reference is non-null, `get_client_status` reports
`initialized = true`; the error code is null unless the most recent
initialize exited through the administratively-disabled or
missing-credentials branch — those two branches record `"disabled"` /
`"no_cookies"` without clearing a previously installed client. -/
theorem status_consistency (steps : List (InitEnv × (Candidate → AttemptResult)))
    (h : (init_sequence steps).client.isSome = true) :
    (get_client_status (init_sequence steps)).initialized = true ∧
    ((init_sequence steps).errorCode = none ∨
     (init_sequence steps).errorCode = some "disabled" ∨
     (init_sequence steps).errorCode = some "no_cookies") :=
  ⟨h, foldl_init_code_inv steps ⟨none, none, none⟩ (by simp) h⟩

/-- Witness for `status_consistency`: a single successful initialization. -/
theorem status_consistency_witness :
    (get_client_status (init_sequence [(envOnlyEnv, fun _ => .success)])).initialized = true ∧
    ((init_sequence [(envOnlyEnv, fun _ => .success)]).errorCode = none ∨
     (init_sequence [(envOnlyEnv, fun _ => .success)]).errorCode = some "disabled" ∨
     (init_sequence [(envOnlyEnv, fun _ => .success)]).errorCode = some "no_cookies") :=
  status_consistency [(envOnlyEnv, fun _ => .success)] rfl

end WebAI
